import Mathlib

/-!
Verification of the monitoring-integration sample service.

This file gives a shallow embedding of the parts of the repository that the
verified properties are about:

* `src/monitoring/models.py` — the data model (device, spectrometer and
  vacuum-chamber resources, spectral sample, request bodies);
* `src/monitoring/device_registry.py` — the in-memory `DeviceRegistry`
  (CRUD, active-flag sweeps, the latest-value spectral store, and the
  `discover_device` handshake);
* `src/monitoring/routers/spectrometers.py` — the `set_control_wavelength`
  and `post_spectral_data` request handlers;
* `src/monitoring/websocket_manager.py` — the broadcast fan-out.

Python dictionaries are embedded as association lists that keep insertion
order, exactly like CPython dicts: assignment replaces the value in place
when the key exists and appends otherwise, deletion removes the entry, and
iteration follows the list order.  Network calls made by the code are
embedded as explicit outcome parameters (`HttpGetResult`, `RegisterResult`,
`DeviceCallResult`), and the fresh UUIDs the code generates are passed in as
explicit id arguments.  Python floats carried by the data (readings,
wavelengths) are embedded as rationals, and datetimes as abstract ticks.
-/

namespace Monitoring

/-! ## Association lists embedding Python dicts -/

/-- Embeds Python `d.get(k)` / `d[k]` lookup: the value at the first
occurrence of key `k`, if any. -/
def alistGet {α : Type} (k : String) : List (String × α) → Option α
  | [] => none
  | (k1, v) :: t => if k1 = k then some v else alistGet k t

/-- Embeds Python `d[k] = v`: replace the value in place when the key is
present, append the pair otherwise. -/
def alistInsert {α : Type} (k : String) (v : α) : List (String × α) → List (String × α)
  | [] => [(k, v)]
  | (k1, v1) :: t => if k1 = k then (k, v) :: t else (k1, v1) :: alistInsert k v t

/-- Embeds Python `del d[k]` (dict keys are unique, so dropping every
occurrence agrees with dropping the single one). -/
def alistErase {α : Type} (k : String) (l : List (String × α)) : List (String × α) :=
  l.filter (fun p => !(p.1 == k))

/-- Embeds an in-place mutation of the object stored under key `k`
(Python `config = d[k]; setattr(config, ...)`). -/
def alistModify {α : Type} (k : String) (f : α → α) (l : List (String × α)) :
    List (String × α) :=
  l.map (fun p => if p.1 = k then (p.1, f p.2) else p)

/-! ## Data model (src/monitoring/models.py) -/

/-- `DeviceType` (models.py:10-12). -/
inductive DeviceType where
  | spectrometer
  | vacuum_chamber
deriving DecidableEq

/-- `ProcessType` (models.py:15-18). -/
inductive ProcessType where
  | two_component
  | three_component
  | composite_two_component
deriving DecidableEq

/-- `DeviceStatus` (models.py:21-24). -/
inductive DeviceStatus where
  | connected
  | disconnected
  | error
deriving DecidableEq

/-- `VacuumChamberStatus` (models.py:27-29). -/
inductive VacuumChamberStatus where
  | running
  | stopped
deriving DecidableEq

/-- A decoded JSON value, as obtained from `response.json()`.  Numbers are
embedded as rationals and datetimes never appear in inbound JSON read by the
embedded code. -/
inductive JsonValue where
  | null : JsonValue
  | jbool (b : Bool) : JsonValue
  | num (q : Rat) : JsonValue
  | str (s : String) : JsonValue
  | arr (elems : List JsonValue) : JsonValue
  | obj (fields : List (String × JsonValue)) : JsonValue

/-- Python truthiness of a JSON-decoded value, used by
`capabilities.get("has_spectrometer")` checks in `discover_device`. -/
def JsonValue.truthy : JsonValue → Bool
  | .null => false
  | .jbool b => b
  | .num q => q != 0
  | .str s => s != ""
  | .arr es => !es.isEmpty
  | .obj fs => !fs.isEmpty

/-- Python item access `data[k]`: succeeds only on a JSON object holding the
key; on anything else the interpreter raises (KeyError / TypeError), which
the caller in `discover_device` turns into the soft no-device result. -/
def JsonValue.index (v : JsonValue) (k : String) : Option JsonValue :=
  match v with
  | .obj fs => alistGet k fs
  | _ => none

/-- Pydantic v2 lax coercion of a JSON-decoded value into a `bool` field
(used when `capabilities.get("is_monochromatic", False)` is validated by the
`SpectrometerConfig` constructor); `none` embeds a ValidationError. -/
def pydanticBool : JsonValue → Option Bool
  | .jbool b => some b
  | .num q => if q = 0 then some false else if q = 1 then some true else none
  | .str s =>
    let t := s.toLower
    if ["true", "t", "yes", "y", "on", "1"].contains t then some true
    else if ["false", "f", "no", "n", "off", "0"].contains t then some false
    else none
  | _ => none

/-- The Python enum call `DeviceType(value)`: member lookup by string value,
ValueError (`none`) otherwise. -/
def DeviceType.ofJson : JsonValue → Option DeviceType
  | .str "spectrometer" => some .spectrometer
  | .str "vacuum-chamber" => some .vacuum_chamber
  | _ => none

/-- The Python enum call `ProcessType(value)`: member lookup by string value,
ValueError (`none`) otherwise. -/
def ProcessType.ofJson : JsonValue → Option ProcessType
  | .str "two-component" => some .two_component
  | .str "three-component" => some .three_component
  | .str "composite-two-component" => some .composite_two_component
  | _ => none

/-- `DeviceInfo` (models.py:39-48).  The generated uuid is the explicit `id`
field; `capabilities` is the free-form JSON map declared by the device. -/
structure DeviceInfo where
  id : String
  type : DeviceType
  port : Nat
  address : String
  name : String
  status : DeviceStatus
  capabilities : List (String × JsonValue)

/-- `SpectrometerConfig` (models.py:65-74). -/
structure SpectrometerConfig where
  id : String
  device_id : String
  name : String
  is_monochromatic : Bool
  control_wavelength : Option Rat
  is_active : Bool
  created_at : Nat
deriving DecidableEq

/-- `VacuumChamberConfig` (models.py:134-145). -/
structure VacuumChamberConfig where
  id : String
  device_id : String
  name : String
  process_type : ProcessType
  current_material : Option String
  current_fraction : Option Rat
  status : VacuumChamberStatus
  is_active : Bool
  created_at : Nat
deriving DecidableEq

/-- `SpectralData` (models.py:97-102). -/
structure SpectralData where
  timestamp : Nat
  calibrated_readings : List Rat
  wavelengths : List Rat
deriving DecidableEq

/-- `PostSpectralDataRequest` (models.py:83-94).  It declares exactly two
fields: `calibrated_readings` and `wavelengths`. -/
structure PostSpectralDataRequest where
  calibrated_readings : List Rat
  wavelengths : List Rat
deriving DecidableEq

/-- Python attribute lookup of `"timestamp"` on a `PostSpectralDataRequest`
value.  The model (models.py:83-94) declares no such field and does not
allow extra attributes, so the lookup always fails (AttributeError),
embedded as `none`. -/
def PostSpectralDataRequest.timestampAttr (_ : PostSpectralDataRequest) : Option Nat :=
  none

/-- A `**kwargs` patch for `update_spectrometer` (device_registry.py:143-152).
Each field present in the patch is written through `setattr`; every
attribute of the config object can be named, and unrecognized keyword names
fail the `hasattr` test and are silently ignored, so they need no
representation. -/
structure SpectrometerPatch where
  id : Option String := none
  device_id : Option String := none
  name : Option String := none
  is_monochromatic : Option Bool := none
  control_wavelength : Option (Option Rat) := none
  is_active : Option Bool := none
  created_at : Option Nat := none
deriving DecidableEq

/-- Applies a patch exactly as the `setattr` loop does. -/
def SpectrometerConfig.applyPatch (c : SpectrometerConfig) (p : SpectrometerPatch) :
    SpectrometerConfig :=
  { id := p.id.getD c.id
    device_id := p.device_id.getD c.device_id
    name := p.name.getD c.name
    is_monochromatic := p.is_monochromatic.getD c.is_monochromatic
    control_wavelength := p.control_wavelength.getD c.control_wavelength
    is_active := p.is_active.getD c.is_active
    created_at := p.created_at.getD c.created_at }

/-- A `**kwargs` patch for `update_vacuum_chamber` (device_registry.py:204-213). -/
structure VacuumChamberPatch where
  id : Option String := none
  device_id : Option String := none
  name : Option String := none
  process_type : Option ProcessType := none
  current_material : Option (Option String) := none
  current_fraction : Option (Option Rat) := none
  status : Option VacuumChamberStatus := none
  is_active : Option Bool := none
  created_at : Option Nat := none
deriving DecidableEq

/-- Applies a chamber patch exactly as the `setattr` loop does. -/
def VacuumChamberConfig.applyPatch (c : VacuumChamberConfig) (p : VacuumChamberPatch) :
    VacuumChamberConfig :=
  { id := p.id.getD c.id
    device_id := p.device_id.getD c.device_id
    name := p.name.getD c.name
    process_type := p.process_type.getD c.process_type
    current_material := p.current_material.getD c.current_material
    current_fraction := p.current_fraction.getD c.current_fraction
    status := p.status.getD c.status
    is_active := p.is_active.getD c.is_active
    created_at := p.created_at.getD c.created_at }

/-! ## The registry state (device_registry.py:22-28) -/

/-- The four dicts owned by `DeviceRegistry.__init__`. -/
structure DeviceRegistry where
  devices : List (String × DeviceInfo)
  spectrometers : List (String × SpectrometerConfig)
  vacuum_chambers : List (String × VacuumChamberConfig)
  spectral_data : List (String × SpectralData)

/-- The freshly initialized registry. -/
def DeviceRegistry.init : DeviceRegistry :=
  { devices := [], spectrometers := [], vacuum_chambers := [], spectral_data := [] }

/-- `get_device` (device_registry.py:117-118). -/
def get_device (reg : DeviceRegistry) (device_id : String) : Option DeviceInfo :=
  alistGet device_id reg.devices

/-- `remove_device` (device_registry.py:123-130). -/
def remove_device (reg : DeviceRegistry) (device_id : String) : DeviceRegistry × Bool :=
  if (alistGet device_id reg.devices).isSome then
    ({ reg with devices := alistErase device_id reg.devices }, true)
  else (reg, false)

/-- `add_spectrometer` (device_registry.py:132-135). -/
def add_spectrometer (reg : DeviceRegistry) (config : SpectrometerConfig) : DeviceRegistry :=
  { reg with spectrometers := alistInsert config.id config reg.spectrometers }

/-- `get_spectrometer` (device_registry.py:137-138). -/
def get_spectrometer (reg : DeviceRegistry) (spectrometer_id : String) :
    Option SpectrometerConfig :=
  alistGet spectrometer_id reg.spectrometers

/-- `update_spectrometer` (device_registry.py:143-152): when the id is
present the stored config object is mutated field by field and returned;
otherwise `None` and no change. -/
def update_spectrometer (reg : DeviceRegistry) (spectrometer_id : String)
    (p : SpectrometerPatch) : DeviceRegistry × Option SpectrometerConfig :=
  match alistGet spectrometer_id reg.spectrometers with
  | some config =>
    ({ reg with spectrometers :=
        alistModify spectrometer_id (fun c => c.applyPatch p) reg.spectrometers },
     some (config.applyPatch p))
  | none => (reg, none)

/-- The active-flag sweep `spec.is_active = spec_id == spectrometer_id`
run over every entry of a dict (device_registry.py:156-157 and 217-218). -/
def sweepActive {α : Type} (setF : α → Bool → α) (target : String)
    (l : List (String × α)) : List (String × α) :=
  l.map (fun p => (p.1, setF p.2 (p.1 == target)))

/-- `set_active_spectrometer` (device_registry.py:154-161). -/
def set_active_spectrometer (reg : DeviceRegistry) (spectrometer_id : String) :
    DeviceRegistry × Bool :=
  if (alistGet spectrometer_id reg.spectrometers).isSome then
    let swept := sweepActive (fun c b => { c with is_active := b }) spectrometer_id reg.spectrometers
    ({ reg with spectrometers := swept }, true)
  else (reg, false)

/-- `remove_spectrometer` (device_registry.py:169-178): deletes the config
and, when present, the stored spectral sample. -/
def remove_spectrometer (reg : DeviceRegistry) (spectrometer_id : String) :
    DeviceRegistry × Bool :=
  if (alistGet spectrometer_id reg.spectrometers).isSome then
    let data :=
      if (alistGet spectrometer_id reg.spectral_data).isSome then
        alistErase spectrometer_id reg.spectral_data
      else reg.spectral_data
    ({ reg with
        spectrometers := alistErase spectrometer_id reg.spectrometers,
        spectral_data := data },
     true)
  else (reg, false)

/-- `store_spectral_data` (device_registry.py:180-188): unconditional
overwrite of the slot for this spectrometer id. -/
def store_spectral_data (reg : DeviceRegistry) (spectrometer_id : String)
    (calibrated_readings wavelengths : List Rat) (timestamp : Nat) : DeviceRegistry :=
  let sample : SpectralData :=
    { timestamp := timestamp
      calibrated_readings := calibrated_readings
      wavelengths := wavelengths }
  { reg with spectral_data := alistInsert spectrometer_id sample reg.spectral_data }

/-- `get_spectral_data` (device_registry.py:190-191). -/
def get_spectral_data (reg : DeviceRegistry) (spectrometer_id : String) :
    Option SpectralData :=
  alistGet spectrometer_id reg.spectral_data

/-- `add_vacuum_chamber` (device_registry.py:193-196). -/
def add_vacuum_chamber (reg : DeviceRegistry) (config : VacuumChamberConfig) :
    DeviceRegistry :=
  { reg with vacuum_chambers := alistInsert config.id config reg.vacuum_chambers }

/-- `get_vacuum_chamber` (device_registry.py:198-199). -/
def get_vacuum_chamber (reg : DeviceRegistry) (chamber_id : String) :
    Option VacuumChamberConfig :=
  alistGet chamber_id reg.vacuum_chambers

/-- `update_vacuum_chamber` (device_registry.py:204-213). -/
def update_vacuum_chamber (reg : DeviceRegistry) (chamber_id : String)
    (p : VacuumChamberPatch) : DeviceRegistry × Option VacuumChamberConfig :=
  match alistGet chamber_id reg.vacuum_chambers with
  | some config =>
    ({ reg with vacuum_chambers :=
        alistModify chamber_id (fun c => c.applyPatch p) reg.vacuum_chambers },
     some (config.applyPatch p))
  | none => (reg, none)

/-- `set_active_vacuum_chamber` (device_registry.py:215-222). -/
def set_active_vacuum_chamber (reg : DeviceRegistry) (chamber_id : String) :
    DeviceRegistry × Bool :=
  if (alistGet chamber_id reg.vacuum_chambers).isSome then
    let swept := sweepActive (fun c b => { c with is_active := b }) chamber_id reg.vacuum_chambers
    ({ reg with vacuum_chambers := swept }, true)
  else (reg, false)

/-- `remove_vacuum_chamber` (device_registry.py:230-237). -/
def remove_vacuum_chamber (reg : DeviceRegistry) (chamber_id : String) :
    DeviceRegistry × Bool :=
  if (alistGet chamber_id reg.vacuum_chambers).isSome then
    ({ reg with vacuum_chambers := alistErase chamber_id reg.vacuum_chambers }, true)
  else (reg, false)

/-! ## Discovery handshake (device_registry.py:30-115)

The outbound `GET /device/info` and the best-effort `POST /register` are
embedded as explicit outcome parameters; the uuids generated for the device
and the auto-provisioned resources are passed in as arguments. -/

/-- Outcome of `client.get(url, timeout=5.0)` followed by `response.json()`:
a timeout, another network error, or a response whose decoded body is `none`
when `response.json()` itself raises. -/
inductive HttpGetResult where
  | timeout
  | network_error
  | response (status : Nat) (body : Option JsonValue)

/-- Outcome of the best-effort `client.post(register_url, ...)`
(device_registry.py:95-104): a response with some status, or an exception. -/
inductive RegisterResult where
  | response (status : Nat)
  | exn

/-- The `DeviceInfo(...)` construction of device_registry.py:40-47, given the
decoded 200 body: requires `data["type"]` to exist and be a valid
`DeviceType` value, `name` to be a string when present (default
"Unknown Device"), and `capabilities` to be an object when present (default
empty).  `none` embeds the KeyError / ValueError / ValidationError that the
outer `except Exception` of `discover_device` turns into the soft no-device
result before anything is stored. -/
def parseDeviceInfo (deviceId : String) (port : Nat) (address : String)
    (data : JsonValue) : Option DeviceInfo :=
  match data.index "type" with
  | none => none
  | some tv =>
    match DeviceType.ofJson tv with
    | none => none
    | some ty =>
      match data.index "name" with
      | some (.str nm) =>
        match data.index "capabilities" with
        | none =>
          some { id := deviceId, type := ty, port := port, address := address,
                 name := nm, status := .connected, capabilities := [] }
        | some (.obj caps) =>
          some { id := deviceId, type := ty, port := port, address := address,
                 name := nm, status := .connected, capabilities := caps }
        | some _ => none
      | none =>
        match data.index "capabilities" with
        | none =>
          some { id := deviceId, type := ty, port := port, address := address,
                 name := "Unknown Device", status := .connected, capabilities := [] }
        | some (.obj caps) =>
          some { id := deviceId, type := ty, port := port, address := address,
                 name := "Unknown Device", status := .connected, capabilities := caps }
        | some _ => none
      | some _ => none

/-- Truthiness of `capabilities.get(key)` (device_registry.py:57 and 71). -/
def capTruthy (caps : List (String × JsonValue)) (key : String) : Bool :=
  match alistGet key caps with
  | some v => v.truthy
  | none => false

/-- `capabilities.get("is_monochromatic", False)` as validated by the
`SpectrometerConfig` bool field (device_registry.py:58). -/
def capMonochromatic (caps : List (String × JsonValue)) : Option Bool :=
  match alistGet "is_monochromatic" caps with
  | none => some false
  | some v => pydanticBool v

/-- `ProcessType(capabilities.get("process_type", "two-component"))`
(device_registry.py:72); `none` embeds the ValueError on an invalid value. -/
def capProcessType (caps : List (String × JsonValue)) : Option ProcessType :=
  match alistGet "process_type" caps with
  | none => some .two_component
  | some v => ProcessType.ofJson v

/-- The spectrometer auto-provisioning step of device_registry.py:57-69.
`none` embeds an exception while building the config (invalid
`is_monochromatic` capability), `some none` means the capability was not
truthy, `some (some c)` is the created config. -/
def provisionSpectrometer (specId : String) (dev : DeviceInfo) (now : Nat) :
    Option (Option SpectrometerConfig) :=
  if capTruthy dev.capabilities "has_spectrometer" then
    match capMonochromatic dev.capabilities with
    | none => none
    | some m =>
      some (some { id := specId, device_id := dev.id,
                   name := dev.name ++ " - Spectrometer",
                   is_monochromatic := m, control_wavelength := none,
                   is_active := false, created_at := now })
  else some none

/-- The vacuum-chamber auto-provisioning step of device_registry.py:71-87. -/
def provisionChamber (chamberId : String) (dev : DeviceInfo) (now : Nat) :
    Option (Option VacuumChamberConfig) :=
  if capTruthy dev.capabilities "has_vacuum_chamber" then
    match capProcessType dev.capabilities with
    | none => none
    | some pt =>
      some (some { id := chamberId, device_id := dev.id,
                   name := dev.name ++ " - Vacuum Chamber",
                   process_type := pt, current_material := some "H",
                   current_fraction := none, status := .stopped,
                   is_active := false, created_at := now })
  else some none

/-- `discover_device` (device_registry.py:30-115).  Mirrors the source
control flow: a failed or non-200 GET, an unparseable body, or a failed
`DeviceInfo` construction returns the soft no-device triple with the
registry untouched; once the device record is stored, a later exception
during auto-provisioning is still caught by the outer handler and returns
the no-device triple, but the mutations already made stay; the register
callback result is only logged, so both its branches continue identically. -/
def discover_device (reg : DeviceRegistry) (port : Nat) (address : String)
    (get : HttpGetResult) (reg_result : RegisterResult)
    (deviceId specId chamberId : String) (now : Nat) :
    DeviceRegistry × (Option DeviceInfo × Option String × Option String) :=
  match get with
  | .timeout => (reg, (none, none, none))
  | .network_error => (reg, (none, none, none))
  | .response status body =>
    if status = 200 then
      match body with
      | none => (reg, (none, none, none))
      | some data =>
        match parseDeviceInfo deviceId port address data with
        | none => (reg, (none, none, none))
        | some dev =>
          let reg1 := { reg with devices := alistInsert dev.id dev reg.devices }
          match provisionSpectrometer specId dev now with
          | none => (reg1, (none, none, none))
          | some so =>
            let reg2 := match so with
                        | some c => add_spectrometer reg1 c
                        | none => reg1
            match provisionChamber chamberId dev now with
            | none => (reg2, (none, none, none))
            | some co =>
              let reg3 := match co with
                          | some c => add_vacuum_chamber reg2 c
                          | none => reg2
              match reg_result with
              | .response _ =>
                (reg3, (some dev, so.map (fun c => c.id), co.map (fun c => c.id)))
              | .exn =>
                (reg3, (some dev, so.map (fun c => c.id), co.map (fun c => c.id)))
    else (reg, (none, none, none))

/-! ## Request handlers (src/monitoring/routers/spectrometers.py) -/

/-- Outcome of the forwarded `POST /control_wavelength` device call
(spectrometers.py:96-106). -/
inductive DeviceCallResult where
  | response (status : Nat)
  | timeout
  | request_error

/-- `set_control_wavelength` (spectrometers.py:80-112).  The result carries
the mutated registry, either an HTTP error status or the updated config, and
the number of device calls performed. -/
def set_control_wavelength_handler (reg : DeviceRegistry) (spectrometer_id : String)
    (wavelength : Rat) (call : DeviceCallResult) :
    DeviceRegistry × Except Nat SpectrometerConfig × Nat :=
  match alistGet spectrometer_id reg.spectrometers with
  | none => (reg, Except.error 404, 0)
  | some config =>
    if !config.is_monochromatic then (reg, Except.error 400, 0)
    else
      match alistGet config.device_id reg.devices with
      | none => (reg, Except.error 404, 0)
      | some _ =>
        match call with
        | .timeout => (reg, Except.error 504, 1)
        | .request_error => (reg, Except.error 502, 1)
        | .response s =>
          if s == 200 || s == 201 || s == 204 then
            match update_spectrometer reg spectrometer_id
                { control_wavelength := some (some wavelength) } with
            | (reg2, some updated) => (reg2, Except.ok updated, 1)
            | (reg2, none) => (reg2, Except.error 500, 1)
          else (reg, Except.error 502, 1)

/-- `post_spectral_data` (spectrometers.py:115-134).  After the 404 check the
source evaluates `request.timestamp`; `PostSpectralDataRequest` declares no
such field (models.py:83-94), so the attribute lookup raises AttributeError
before `store_spectral_data` runs, which FastAPI surfaces as a 500 response.
The `some` branch embeds what the rest of the handler does with a timestamp
attribute, and is unreachable because `timestampAttr` is constantly `none`;
the broadcast that follows the store does not touch the registry. -/
def post_spectral_data_handler (reg : DeviceRegistry) (spectrometer_id : String)
    (req : PostSpectralDataRequest) : DeviceRegistry × Except Nat Unit :=
  match alistGet spectrometer_id reg.spectrometers with
  | none => (reg, Except.error 404)
  | some _ =>
    match req.timestampAttr with
    | none => (reg, Except.error 500)
    | some ts =>
      (store_spectral_data reg spectrometer_id req.calibrated_readings req.wavelengths ts,
       Except.ok ())

/-! ## Broadcast fan-out (src/monitoring/websocket_manager.py) -/

/-- The JSON message serialized once per broadcast
(websocket_manager.py:35-39). -/
structure BroadcastMessage where
  spectrometer_id : String
  timestamp : String
  calibrated_readings : List Rat
deriving DecidableEq

/-- The delivery loop of websocket_manager.py:48-54: iterate over the
connection set, attempt each send, and collect the failing handles instead
of letting them escape.  Returns the successful deliveries and the
`disconnected` set, in iteration order. -/
def broadcastPass (message : BroadcastMessage) (sendFails : Nat → Bool) :
    List Nat → List (Nat × BroadcastMessage) × List Nat
  | [] => ([], [])
  | c :: rest =>
    let r := broadcastPass message sendFails rest
    if sendFails c then (r.1, c :: r.2) else ((c, message) :: r.1, r.2)

/-- `broadcast_spectral_data` (websocket_manager.py:29-57).  Connection
handles are abstract naturals; `sendFails` tells which handles raise on
`send_text`.  An empty connection set returns immediately; otherwise one
full delivery pass runs and only afterwards every failed handle is
discarded from the set. -/
def broadcast_spectral_data (conns : List Nat) (sendFails : Nat → Bool)
    (spectrometer_id timestamp : String) (calibrated_readings : List Rat) :
    List Nat × List (Nat × BroadcastMessage) :=
  if conns.isEmpty then (conns, [])
  else
    let message : BroadcastMessage :=
      { spectrometer_id := spectrometer_id, timestamp := timestamp,
        calibrated_readings := calibrated_readings }
    let r := broadcastPass message sendFails conns
    (r.2.foldl (fun s c => s.erase c) conns, r.1)

/-! ## Registry operation sequences (for the reachability invariant) -/

/-- One registry operation, as invoked by the REST layer or by discovery. -/
inductive RegOp where
  | add_spectrometer (c : SpectrometerConfig)
  | update_spectrometer (id : String) (p : SpectrometerPatch)
  | set_active_spectrometer (id : String)
  | remove_spectrometer (id : String)
  | add_vacuum_chamber (c : VacuumChamberConfig)
  | update_vacuum_chamber (id : String) (p : VacuumChamberPatch)
  | set_active_vacuum_chamber (id : String)
  | remove_vacuum_chamber (id : String)
  | remove_device (id : String)
  | store_spectral_data (id : String) (readings wavelengths : List Rat) (timestamp : Nat)
  | discover (port : Nat) (address : String) (get : HttpGetResult) (rr : RegisterResult)
      (deviceId specId chamberId : String) (now : Nat)

/-- State transition of one registry operation. -/
def applyOp (reg : DeviceRegistry) : RegOp → DeviceRegistry
  | .add_spectrometer c => add_spectrometer reg c
  | .update_spectrometer id p => (update_spectrometer reg id p).1
  | .set_active_spectrometer id => (set_active_spectrometer reg id).1
  | .remove_spectrometer id => (remove_spectrometer reg id).1
  | .add_vacuum_chamber c => add_vacuum_chamber reg c
  | .update_vacuum_chamber id p => (update_vacuum_chamber reg id p).1
  | .set_active_vacuum_chamber id => (set_active_vacuum_chamber reg id).1
  | .remove_vacuum_chamber id => (remove_vacuum_chamber reg id).1
  | .remove_device id => (remove_device reg id).1
  | .store_spectral_data id r w t => store_spectral_data reg id r w t
  | .discover port addr g rr d s c n => (discover_device reg port addr g rr d s c n).1

/-- The registry state after running a sequence of operations from the
freshly initialized registry. -/
def runOps (ops : List RegOp) : DeviceRegistry :=
  ops.foldl applyOp DeviceRegistry.init

/-- Number of entries of an association list whose value satisfies `flag`. -/
def countFlag {α : Type} (flag : α → Bool) (l : List (String × α)) : Nat :=
  (l.filter (fun p => flag p.2)).length

/-- Number of spectrometers whose active flag is set. -/
def activeSpectrometerCount (reg : DeviceRegistry) : Nat :=
  countFlag (fun c => c.is_active) reg.spectrometers

/-- Number of vacuum chambers whose active flag is set. -/
def activeVacuumChamberCount (reg : DeviceRegistry) : Nat :=
  countFlag (fun c => c.is_active) reg.vacuum_chambers

/-- An operation that neither inserts an already-active resource nor patches
the active flag directly; this is exactly how the REST layer of the
repository calls the registry (create endpoints build configs with
`is_active=False`, update calls patch only wavelength / status / material /
fraction). -/
def RegOp.benign : RegOp → Bool
  | .add_spectrometer c => !c.is_active
  | .update_spectrometer _ p => p.is_active.isNone
  | .add_vacuum_chamber c => !c.is_active
  | .update_vacuum_chamber _ p => p.is_active.isNone
  | _ => true

/-- The single-active invariant, per resource kind, together with the key
uniqueness every Python dict guarantees. -/
def RegistryActiveInv (reg : DeviceRegistry) : Prop :=
  (reg.spectrometers.map Prod.fst).Nodup ∧ activeSpectrometerCount reg ≤ 1 ∧
  (reg.vacuum_chambers.map Prod.fst).Nodup ∧ activeVacuumChamberCount reg ≤ 1

/-! ## Lemmas about the association-list embedding -/

theorem alistGet_insert_self {α : Type} (k : String) (v : α) (l : List (String × α)) :
    alistGet k (alistInsert k v l) = some v := by
  induction l with
  | nil => simp [alistInsert, alistGet]
  | cons p t ih =>
    by_cases h : p.1 = k
    · simp [alistInsert, alistGet, h]
    · simpa [alistInsert, alistGet, h] using ih

theorem alistGet_sweep {α : Type} (setF : α → Bool → α) (target k : String)
    (l : List (String × α)) :
    alistGet k (sweepActive setF target l) =
      (alistGet k l).map (fun a => setF a (k == target)) := by
  induction l with
  | nil => simp [sweepActive, alistGet]
  | cons p t ih =>
    by_cases h : p.1 = k
    · subst h; simp [sweepActive, alistGet]
    · simpa [sweepActive, alistGet, h] using ih

theorem mem_sweep_is_active {α : Type} (setF : α → Bool → α) (flag : α → Bool)
    (hs : ∀ a b, flag (setF a b) = b) (target : String) (l : List (String × α)) :
    ∀ p ∈ sweepActive setF target l, flag p.2 = (p.1 == target) := by
  intro p hp
  simp only [sweepActive, List.mem_map] at hp
  obtain ⟨q, _, rfl⟩ := hp
  exact hs q.2 (q.1 == target)

theorem alistGet_erase {α : Type} (k k2 : String) (l : List (String × α)) :
    alistGet k (alistErase k2 l) = if k = k2 then none else alistGet k l := by
  induction l with
  | nil => simp only [alistErase, List.filter_nil]; split <;> rfl
  | cons p t ih =>
    obtain ⟨k1, v1⟩ := p
    simp only [alistErase] at ih ⊢
    by_cases h : k1 = k2
    · rw [List.filter_cons]
      have hq : (!((k1, v1).1 == k2)) = false := by simp [h]
      rw [hq]
      simp only [Bool.false_eq_true, if_false, ih]
      by_cases hk : k = k2
      · simp [hk]
      · have hpk : ¬ k1 = k := by
          intro hh
          rw [hh] at h
          exact hk h
        simp [hk, alistGet, hpk]
    · rw [List.filter_cons]
      have hq : (!((k1, v1).1 == k2)) = true := by simp [h]
      rw [hq]
      simp only [if_true]
      by_cases hp : k1 = k
      · have hk : ¬ k = k2 := by
          intro hh
          rw [← hp] at hh
          exact h hh
        simp [alistGet, hp, hk]
      · simp [alistGet, hp, ih]

theorem countFlag_cons {α : Type} (flag : α → Bool) (p : String × α)
    (t : List (String × α)) :
    countFlag flag (p :: t) = (if flag p.2 then 1 else 0) + countFlag flag t := by
  simp only [countFlag, List.filter_cons]
  split <;> simp [Nat.add_comm]

theorem countFlag_insert_le {α : Type} (flag : α → Bool) (k : String) (v : α)
    (l : List (String × α)) (hv : flag v = false) :
    countFlag flag (alistInsert k v l) ≤ countFlag flag l := by
  induction l with
  | nil => simp [alistInsert, countFlag, hv]
  | cons p t ih =>
    obtain ⟨k1, v1⟩ := p
    by_cases h : k1 = k
    · simp only [alistInsert, h, if_true]
      rw [countFlag_cons, countFlag_cons, hv]
      simp only [Bool.false_eq_true, if_false]
      omega
    · simp only [alistInsert, h, if_false]
      rw [countFlag_cons, countFlag_cons]
      omega

theorem mem_keys_insert {α : Type} (x k : String) (v : α) (l : List (String × α)) :
    x ∈ (alistInsert k v l).map Prod.fst ↔ x = k ∨ x ∈ l.map Prod.fst := by
  induction l with
  | nil => simp [alistInsert]
  | cons p t ih =>
    by_cases h : p.1 = k
    · subst h; simp [alistInsert]
    · simp only [alistInsert, h, if_false, List.map_cons, List.mem_cons, ih]
      tauto

theorem nodup_keys_insert {α : Type} (k : String) (v : α) (l : List (String × α))
    (h : (l.map Prod.fst).Nodup) : ((alistInsert k v l).map Prod.fst).Nodup := by
  induction l with
  | nil => simp [alistInsert]
  | cons p t ih =>
    simp only [List.map_cons, List.nodup_cons] at h
    by_cases hk : p.1 = k
    · subst hk
      simpa [alistInsert, List.nodup_cons] using h
    · simp only [alistInsert, hk, if_false, List.map_cons, List.nodup_cons]
      refine ⟨fun hm => ?_, ih h.2⟩
      rcases (mem_keys_insert p.1 k v t).mp hm with h1 | h2
      · exact hk h1
      · exact h.1 h2

theorem keys_modify {α : Type} (k : String) (g : α → α) (l : List (String × α)) :
    (alistModify k g l).map Prod.fst = l.map Prod.fst := by
  induction l with
  | nil => rfl
  | cons p t ih =>
    simp only [alistModify, List.map_cons] at ih ⊢
    by_cases h : p.1 = k <;> simp [h, ih]

theorem countFlag_modify {α : Type} (flag : α → Bool) (k : String) (g : α → α)
    (l : List (String × α)) (hg : ∀ a, flag (g a) = flag a) :
    countFlag flag (alistModify k g l) = countFlag flag l := by
  induction l with
  | nil => rfl
  | cons p t ih =>
    by_cases h : p.1 = k
    · simp only [alistModify, h, if_true, List.map_cons] at ih ⊢
      rw [countFlag_cons, countFlag_cons, hg, ih]
    · simp only [alistModify, h, if_false, List.map_cons] at ih ⊢
      rw [countFlag_cons, countFlag_cons, ih]

theorem keys_sweep {α : Type} (setF : α → Bool → α) (target : String)
    (l : List (String × α)) :
    (sweepActive setF target l).map Prod.fst = l.map Prod.fst := by
  induction l with
  | nil => rfl
  | cons p t ih => simp [sweepActive, ih]

theorem countFlag_sweep_eq {α : Type} (setF : α → Bool → α) (flag : α → Bool)
    (hs : ∀ a b, flag (setF a b) = b) (target : String) (l : List (String × α)) :
    countFlag flag (sweepActive setF target l) =
      List.countP (fun p => p.1 == target) l := by
  induction l with
  | nil => rfl
  | cons p t ih =>
    simp only [sweepActive, List.map_cons] at ih ⊢
    rw [countFlag_cons, ih, List.countP_cons, hs]
    omega

theorem countP_key_le_one {α : Type} (target : String) (l : List (String × α))
    (h : (l.map Prod.fst).Nodup) :
    List.countP (fun p => p.1 == target) l ≤ 1 := by
  have h1 : List.countP (fun p => p.1 == target) l
      = List.countP (fun x => x == target) (l.map Prod.fst) := by
    rw [List.countP_map]; rfl
  rw [h1, ← List.count_eq_countP]
  exact List.nodup_iff_count_le_one.mp h target

theorem countFlag_filter_le {α : Type} (flag : α → Bool) (q : String × α → Bool)
    (l : List (String × α)) :
    countFlag flag (l.filter q) ≤ countFlag flag l := by
  simp only [countFlag, ← List.countP_eq_length_filter]
  exact List.Sublist.countP_le _ (List.filter_sublist l)

theorem nodup_keys_filter {α : Type} (q : String × α → Bool) (l : List (String × α))
    (h : (l.map Prod.fst).Nodup) : ((l.filter q).map Prod.fst).Nodup :=
  List.Nodup.sublist (List.Sublist.map Prod.fst (List.filter_sublist l)) h

/-! ## Lemmas about the broadcast fan-out -/

theorem broadcastPass_eq (m : BroadcastMessage) (f : Nat → Bool) (l : List Nat) :
    broadcastPass m f l =
      ((l.filter (fun c => !f c)).map (fun c => (c, m)), l.filter f) := by
  induction l with
  | nil => rfl
  | cons c t ih =>
    simp only [broadcastPass, ih, List.filter_cons]
    by_cases h : f c = true <;> simp [h]

theorem filter_beq_singleton (l : List Nat) (a : Nat) (hn : l.Nodup) (ha : a ∈ l) :
    l.filter (fun c => c == a) = [a] := by
  induction l with
  | nil => cases ha
  | cons c t ih =>
    simp only [List.nodup_cons] at hn
    rcases List.mem_cons.mp ha with h1 | h2
    · subst h1
      simp only [List.filter_cons, beq_self_eq_true, if_true]
      have hnil : t.filter (fun x => x == a) = [] := by
        rw [List.filter_eq_nil_iff]
        intro b hb
        simp only [beq_iff_eq]
        intro hbc
        exact hn.1 (hbc ▸ hb)
      rw [hnil]
    · have hc : ¬ (c = a) := by
        intro hh
        exact hn.1 (hh ▸ h2)
      simp only [List.filter_cons]
      rw [show ((c == a) = false) by simpa using hc]
      simp only [Bool.false_eq_true, if_false]
      exact ih hn.2 h2

theorem broadcast_no_failures (l : List Nat) (sid ts : String) (rs : List Rat) :
    broadcast_spectral_data l (fun _ => false) sid ts rs =
      (l, l.map (fun c =>
        (c, { spectrometer_id := sid, timestamp := ts,
              calibrated_readings := rs : BroadcastMessage }))) := by
  cases l with
  | nil => rfl
  | cons c t =>
    simp only [broadcast_spectral_data, List.isEmpty_cons, Bool.false_eq_true, if_false]
    rw [broadcastPass_eq]
    simp

/-! ## Lemmas about the discovery handshake -/

/-- The conditional spectrometer insertion done by discovery. -/
def addSpecOpt (reg : DeviceRegistry) : Option SpectrometerConfig → DeviceRegistry
  | some c => add_spectrometer reg c
  | none => reg

/-- The conditional chamber insertion done by discovery. -/
def addChamberOpt (reg : DeviceRegistry) : Option VacuumChamberConfig → DeviceRegistry
  | some c => add_vacuum_chamber reg c
  | none => reg

theorem discover_success_eq (reg : DeviceRegistry) (port : Nat) (address : String)
    (rr : RegisterResult) (deviceId specId chamberId : String) (now : Nat)
    (data : JsonValue) (dev : DeviceInfo) (so : Option SpectrometerConfig)
    (co : Option VacuumChamberConfig)
    (hparse : parseDeviceInfo deviceId port address data = some dev)
    (hspec : provisionSpectrometer specId dev now = some so)
    (hcham : provisionChamber chamberId dev now = some co) :
    discover_device reg port address (.response 200 (some data)) rr
      deviceId specId chamberId now
      = (addChamberOpt
           (addSpecOpt { reg with devices := alistInsert dev.id dev reg.devices } so) co,
         (some dev, so.map (fun c => c.id), co.map (fun c => c.id))) := by
  cases rr <;>
    simp [discover_device, hparse, hspec, hcham, addSpecOpt, addChamberOpt]

theorem provisionSpectrometer_inactive (specId : String) (dev : DeviceInfo) (now : Nat)
    (c : SpectrometerConfig) (h : provisionSpectrometer specId dev now = some (some c)) :
    c.is_active = false := by
  unfold provisionSpectrometer at h
  split at h
  · cases hm : capMonochromatic dev.capabilities with
    | none => rw [hm] at h; simp at h
    | some m =>
      rw [hm] at h
      simp only [Option.some.injEq] at h
      rw [← h]
  · simp at h

theorem provisionChamber_inactive (chamberId : String) (dev : DeviceInfo) (now : Nat)
    (c : VacuumChamberConfig) (h : provisionChamber chamberId dev now = some (some c)) :
    c.is_active = false := by
  unfold provisionChamber at h
  split at h
  · cases hm : capProcessType dev.capabilities with
    | none => rw [hm] at h; simp at h
    | some m =>
      rw [hm] at h
      simp only [Option.some.injEq] at h
      rw [← h]
  · simp at h

theorem discover_registry_effects (reg : DeviceRegistry) (port : Nat) (address : String)
    (get : HttpGetResult) (rr : RegisterResult) (dId sId cId : String) (now : Nat) :
    ((discover_device reg port address get rr dId sId cId now).1.spectrometers
        = reg.spectrometers ∨
      ∃ c, c.is_active = false ∧
        (discover_device reg port address get rr dId sId cId now).1.spectrometers
          = alistInsert c.id c reg.spectrometers) ∧
    ((discover_device reg port address get rr dId sId cId now).1.vacuum_chambers
        = reg.vacuum_chambers ∨
      ∃ c, c.is_active = false ∧
        (discover_device reg port address get rr dId sId cId now).1.vacuum_chambers
          = alistInsert c.id c reg.vacuum_chambers) := by
  cases get with
  | timeout => exact ⟨Or.inl rfl, Or.inl rfl⟩
  | network_error => exact ⟨Or.inl rfl, Or.inl rfl⟩
  | response status body =>
    by_cases hs : status = 200
    · subst hs
      cases body with
      | none => exact ⟨Or.inl rfl, Or.inl rfl⟩
      | some data =>
        cases hp : parseDeviceInfo dId port address data with
        | none => constructor <;> left <;> simp [discover_device, hp]
        | some dev =>
          cases hps : provisionSpectrometer sId dev now with
          | none => constructor <;> left <;> simp [discover_device, hp, hps]
          | some so =>
            cases hpc : provisionChamber cId dev now with
            | none =>
              constructor
              · cases so with
                | none => left; simp [discover_device, hp, hps, hpc]
                | some c =>
                  right
                  exact ⟨c, provisionSpectrometer_inactive sId dev now c hps,
                    by simp [discover_device, hp, hps, hpc, add_spectrometer]⟩
              · left; cases so <;> simp [discover_device, hp, hps, hpc, add_spectrometer]
            | some co =>
              have heq := discover_success_eq reg port address rr dId sId cId now data
                dev so co hp hps hpc
              rw [heq]
              constructor
              · cases so with
                | none => left; cases co <;> simp [addSpecOpt, addChamberOpt,
                    add_spectrometer, add_vacuum_chamber]
                | some c =>
                  right
                  refine ⟨c, provisionSpectrometer_inactive sId dev now c hps, ?_⟩
                  cases co <;> simp [addSpecOpt, addChamberOpt,
                    add_spectrometer, add_vacuum_chamber]
              · cases co with
                | none => left; cases so <;> simp [addSpecOpt, addChamberOpt,
                    add_spectrometer, add_vacuum_chamber]
                | some c =>
                  right
                  refine ⟨c, provisionChamber_inactive cId dev now c hpc, ?_⟩
                  cases so <;> simp [addSpecOpt, addChamberOpt,
                    add_spectrometer, add_vacuum_chamber]
    · constructor <;> left <;> simp [discover_device, hs]

/-! ## Concrete sample data used by the witness theorems -/

/-- A sample non-monochromatic spectrometer config. -/
def sampleSpec (i : String) (active : Bool) : SpectrometerConfig :=
  { id := i, device_id := "dev-1", name := i, is_monochromatic := false,
    control_wavelength := none, is_active := active, created_at := 0 }

/-- A sample vacuum-chamber config. -/
def sampleChamber (i : String) (active : Bool) : VacuumChamberConfig :=
  { id := i, device_id := "dev-1", name := i, process_type := .two_component,
    current_material := some "H", current_fraction := none,
    status := .stopped, is_active := active, created_at := 0 }

/-- A sample connected device record. -/
def sampleDevice : DeviceInfo :=
  { id := "dev-1", type := .spectrometer, port := 8100, address := "localhost",
    name := "Dev", status := .connected, capabilities := [] }

/-- A sample populated registry. -/
def regW : DeviceRegistry :=
  { devices := [("dev-1", sampleDevice)],
    spectrometers := [("a", sampleSpec "a" false), ("b", sampleSpec "b" true)],
    vacuum_chambers := [("x", sampleChamber "x" true)],
    spectral_data :=
      [("a", { timestamp := 3, calibrated_readings := [(1:Rat)], wavelengths := [(2:Rat)] })] }

/-! ## Claim theorems -/

/-- Claim C1: for every registry state and each resource kind, a setActive
call with an id present in that kind returns success and afterwards every
entry of that kind carries the active flag exactly when its key is the
requested id (so the target is active, every other resource of the same
kind is inactive, and no other field changes), while the collections of the
other kind, the devices and the spectral store are untouched; with an id not
present it reports failure (mapped to NotFound by the router) and the whole
state is unchanged.  Covers `set_active_spectrometer`
(device_registry.py:154-161) and `set_active_vacuum_chamber`
(device_registry.py:215-222). -/
theorem C1_set_active_exclusive (reg : DeviceRegistry) (id : String) :
    (((alistGet id reg.spectrometers).isSome = true →
        (set_active_spectrometer reg id).2 = true ∧
        (∃ c, alistGet id (set_active_spectrometer reg id).1.spectrometers = some c ∧
           c.is_active = true) ∧
        (∀ k, alistGet k (set_active_spectrometer reg id).1.spectrometers =
           (alistGet k reg.spectrometers).map (fun c => { c with is_active := k == id })) ∧
        (∀ p ∈ (set_active_spectrometer reg id).1.spectrometers, p.2.is_active = (p.1 == id)) ∧
        (set_active_spectrometer reg id).1.vacuum_chambers = reg.vacuum_chambers ∧
        (set_active_spectrometer reg id).1.devices = reg.devices ∧
        (set_active_spectrometer reg id).1.spectral_data = reg.spectral_data) ∧
      ((alistGet id reg.spectrometers).isSome = false →
        set_active_spectrometer reg id = (reg, false))) ∧
    (((alistGet id reg.vacuum_chambers).isSome = true →
        (set_active_vacuum_chamber reg id).2 = true ∧
        (∃ c, alistGet id (set_active_vacuum_chamber reg id).1.vacuum_chambers = some c ∧
           c.is_active = true) ∧
        (∀ k, alistGet k (set_active_vacuum_chamber reg id).1.vacuum_chambers =
           (alistGet k reg.vacuum_chambers).map (fun c => { c with is_active := k == id })) ∧
        (∀ p ∈ (set_active_vacuum_chamber reg id).1.vacuum_chambers,
           p.2.is_active = (p.1 == id)) ∧
        (set_active_vacuum_chamber reg id).1.spectrometers = reg.spectrometers ∧
        (set_active_vacuum_chamber reg id).1.devices = reg.devices ∧
        (set_active_vacuum_chamber reg id).1.spectral_data = reg.spectral_data) ∧
      ((alistGet id reg.vacuum_chambers).isSome = false →
        set_active_vacuum_chamber reg id = (reg, false))) := by
  constructor
  · constructor
    · intro h
      obtain ⟨c0, hc0⟩ := Option.isSome_iff_exists.mp h
      have hstate : set_active_spectrometer reg id =
          ({ reg with spectrometers :=
              sweepActive (fun c b => { c with is_active := b }) id reg.spectrometers },
           true) := by
        simp [set_active_spectrometer, h]
      rw [hstate]
      refine ⟨rfl, ?_, ?_, ?_, rfl, rfl, rfl⟩
      · refine ⟨{ c0 with is_active := true }, ?_, rfl⟩
        show alistGet id (sweepActive (fun c b => { c with is_active := b }) id
          reg.spectrometers) = some { c0 with is_active := true }
        rw [alistGet_sweep, hc0]
        simp
      · intro k
        exact alistGet_sweep (fun c b => { c with is_active := b }) id k reg.spectrometers
      · exact mem_sweep_is_active (fun c b => { c with is_active := b })
          (fun c => c.is_active) (fun a b => rfl) id reg.spectrometers
    · intro h
      simp [set_active_spectrometer, h]
  · constructor
    · intro h
      obtain ⟨c0, hc0⟩ := Option.isSome_iff_exists.mp h
      have hstate : set_active_vacuum_chamber reg id =
          ({ reg with vacuum_chambers :=
              sweepActive (fun c b => { c with is_active := b }) id reg.vacuum_chambers },
           true) := by
        simp [set_active_vacuum_chamber, h]
      rw [hstate]
      refine ⟨rfl, ?_, ?_, ?_, rfl, rfl, rfl⟩
      · refine ⟨{ c0 with is_active := true }, ?_, rfl⟩
        show alistGet id (sweepActive (fun c b => { c with is_active := b }) id
          reg.vacuum_chambers) = some { c0 with is_active := true }
        rw [alistGet_sweep, hc0]
        simp
      · intro k
        exact alistGet_sweep (fun c b => { c with is_active := b }) id k reg.vacuum_chambers
      · exact mem_sweep_is_active (fun c b => { c with is_active := b })
          (fun c => c.is_active) (fun a b => rfl) id reg.vacuum_chambers
    · intro h
      simp [set_active_vacuum_chamber, h]

/-- Witness for C1: activating the present spectrometer "a" of the sample
registry succeeds, and activating the absent chamber id "a" reports failure
and leaves the registry unchanged. -/
theorem C1_witness :
    (alistGet "a" regW.spectrometers).isSome = true ∧
    (set_active_spectrometer regW "a").2 = true ∧
    (alistGet "a" regW.vacuum_chambers).isSome = false ∧
    set_active_vacuum_chamber regW "a" = (regW, false) :=
  ⟨rfl, ((C1_set_active_exclusive regW "a").1.1 rfl).1, rfl,
   (C1_set_active_exclusive regW "a").2.2 rfl⟩

/-- Claim C5 (code bug): the source of `post_spectral_data`
(spectrometers.py:124) reads `request.timestamp`, a field that
`PostSpectralDataRequest` (models.py:83-94) does not declare, so for every
registry holding the addressed spectrometer the handler raises
AttributeError (HTTP 500) before `store_spectral_data` runs and the registry
is returned unchanged — the posted sample is never stored, so the claimed
post-then-read round trip cannot happen over the HTTP surface. -/
theorem C5_post_timestamp_bug (reg : DeviceRegistry) (id : String)
    (req : PostSpectralDataRequest)
    (h : (alistGet id reg.spectrometers).isSome = true) :
    post_spectral_data_handler reg id req = (reg, Except.error 500) := by
  obtain ⟨c, hc⟩ := Option.isSome_iff_exists.mp h
  simp [post_spectral_data_handler, hc, PostSpectralDataRequest.timestampAttr]

/-- Witness for C5: posting a concrete sample to the present spectrometer
"a" yields the 500 outcome and stores nothing. -/
theorem C5_witness :
    (alistGet "a" regW.spectrometers).isSome = true ∧
    post_spectral_data_handler regW "a"
      { calibrated_readings := [(10:Rat)], wavelengths := [(400:Rat)] }
      = (regW, Except.error 500) :=
  ⟨rfl, C5_post_timestamp_bug regW "a"
    { calibrated_readings := [(10:Rat)], wavelengths := [(400:Rat)] } rfl⟩

/-- Claim C6: removing a present spectrometer succeeds, deletes both the
config and its stored spectral sample (a later read returns none), leaves
every other spectrometer and sample readable unchanged, and does not touch
devices or chambers; removing an absent id reports failure and changes
nothing.  Covers `remove_spectrometer` (device_registry.py:169-178). -/
theorem C6_remove_spectrometer_cleans (reg : DeviceRegistry) (id : String) :
    ((alistGet id reg.spectrometers).isSome = true →
       (remove_spectrometer reg id).2 = true ∧
       alistGet id (remove_spectrometer reg id).1.spectrometers = none ∧
       get_spectral_data (remove_spectrometer reg id).1 id = none ∧
       (∀ k, ¬ k = id →
          alistGet k (remove_spectrometer reg id).1.spectrometers
            = alistGet k reg.spectrometers ∧
          get_spectral_data (remove_spectrometer reg id).1 k = get_spectral_data reg k) ∧
       (remove_spectrometer reg id).1.devices = reg.devices ∧
       (remove_spectrometer reg id).1.vacuum_chambers = reg.vacuum_chambers) ∧
    ((alistGet id reg.spectrometers).isSome = false →
       remove_spectrometer reg id = (reg, false)) := by
  constructor
  · intro h
    have hstate : remove_spectrometer reg id =
        ({ reg with
            spectrometers := alistErase id reg.spectrometers,
            spectral_data :=
              if (alistGet id reg.spectral_data).isSome = true then
                alistErase id reg.spectral_data
              else reg.spectral_data }, true) := by
      simp [remove_spectrometer, h]
    rw [hstate]
    refine ⟨rfl, ?_, ?_, ?_, rfl, rfl⟩
    · show alistGet id (alistErase id reg.spectrometers) = none
      rw [alistGet_erase]
      simp
    · show alistGet id (if (alistGet id reg.spectral_data).isSome = true then
          alistErase id reg.spectral_data else reg.spectral_data) = none
      by_cases hs : (alistGet id reg.spectral_data).isSome = true
      · rw [if_pos hs, alistGet_erase]
        simp
      · have ho : alistGet id reg.spectral_data = none := by
          cases ho2 : alistGet id reg.spectral_data with
          | none => rfl
          | some v => rw [ho2] at hs; simp at hs
        rw [if_neg hs]
        exact ho
    · intro k hk
      constructor
      · show alistGet k (alistErase id reg.spectrometers) = alistGet k reg.spectrometers
        rw [alistGet_erase]
        simp [hk]
      · show alistGet k (if (alistGet id reg.spectral_data).isSome = true then
            alistErase id reg.spectral_data else reg.spectral_data)
          = alistGet k reg.spectral_data
        by_cases hs : (alistGet id reg.spectral_data).isSome = true
        · rw [if_pos hs, alistGet_erase]
          simp [hk]
        · rw [if_neg hs]
  · intro h
    simp [remove_spectrometer, h]

/-- Witness for C6: removing the present spectrometer "a" (its sample is
stored) succeeds and the sample read returns none; removing "zzz" fails
identically. -/
theorem C6_witness :
    (alistGet "a" regW.spectrometers).isSome = true ∧
    (remove_spectrometer regW "a").2 = true ∧
    get_spectral_data (remove_spectrometer regW "a").1 "a" = none ∧
    (alistGet "zzz" regW.spectrometers).isSome = false ∧
    remove_spectrometer regW "zzz" = (regW, false) :=
  ⟨rfl, ((C6_remove_spectrometer_cleans regW "a").1 rfl).1,
   ((C6_remove_spectrometer_cleans regW "a").1 rfl).2.2.1, rfl,
   (C6_remove_spectrometer_cleans regW "zzz").2 rfl⟩

/-- Claim C9: for every registered spectrometer whose monochromatic flag is
false and every positive requested wavelength, `set_control_wavelength`
(spectrometers.py:80-112) answers the bad-request Conflict status 400, makes
no call to the peripheral device, and returns the registry unchanged (so the
stored `control_wavelength` keeps its prior value). -/
theorem C9_nonmono_conflict (reg : DeviceRegistry) (id : String) (w : Rat)
    (call : DeviceCallResult) (c : SpectrometerConfig)
    (hw : 0 < w) (hc : alistGet id reg.spectrometers = some c)
    (hm : c.is_monochromatic = false) :
    set_control_wavelength_handler reg id w call = (reg, Except.error 400, 0) := by
  simp [set_control_wavelength_handler, hc, hm]

/-- Witness for C9: setting wavelength 550 on the non-monochromatic
spectrometer "a" of the sample registry yields 400, zero device calls, and
the unchanged registry, whatever the device would have answered. -/
theorem C9_witness :
    (0:Rat) < 550 ∧
    alistGet "a" regW.spectrometers = some (sampleSpec "a" false) ∧
    (sampleSpec "a" false).is_monochromatic = false ∧
    set_control_wavelength_handler regW "a" 550 (.response 200)
      = (regW, Except.error 400, 0) :=
  ⟨by norm_num, rfl, rfl,
   C9_nonmono_conflict regW "a" 550 (.response 200) (sampleSpec "a" false)
     (by norm_num) rfl rfl⟩

/-- Claim C10: a 200 response whose JSON body lacks the required type key,
or whose type value is not a valid `DeviceType` member, is caught inside
`discover_device` (the KeyError / ValueError reaches the outer
`except Exception`, device_registry.py:113-115) before any store happens:
the call returns the soft no-device triple and the registry is unchanged. -/
theorem C10_bad_type_soft (reg : DeviceRegistry) (port : Nat) (address : String)
    (rr : RegisterResult) (deviceId specId chamberId : String) (now : Nat)
    (data : JsonValue)
    (h : (data.index "type").bind DeviceType.ofJson = none) :
    discover_device reg port address (.response 200 (some data)) rr
      deviceId specId chamberId now = (reg, (none, none, none)) := by
  have hp : parseDeviceInfo deviceId port address data = none := by
    cases hidx : data.index "type" with
    | none => simp [parseDeviceInfo, hidx]
    | some tv =>
      rw [hidx] at h
      simp only [Option.some_bind] at h
      simp [parseDeviceInfo, hidx, h]
  simp [discover_device, hp]

/-- Witness for C10: discovering against a 200 body that is an empty JSON
object returns the no-device triple and leaves the fresh registry empty. -/
theorem C10_witness :
    ((JsonValue.obj []).index "type").bind DeviceType.ofJson = none ∧
    discover_device DeviceRegistry.init 8100 "localhost"
      (.response 200 (some (JsonValue.obj []))) (.response 200) "d1" "s1" "c1" 0
      = (DeviceRegistry.init, (none, none, none)) :=
  ⟨rfl, C10_bad_type_soft DeviceRegistry.init 8100 "localhost" (.response 200)
    "d1" "s1" "c1" 0 (JsonValue.obj []) rfl⟩

/-- Claim C7: when exactly one of the subscribed handles raises on send,
`broadcast_spectral_data` (websocket_manager.py:29-57) still delivers the
single serialized message to every other handle (the failing handle is only
collected during the pass and discarded afterwards, so handles after it are
still attempted), the new connection set is the old one minus the failing
handle, a subsequent broadcast with working sends reaches exactly those
survivors, and broadcasting to an empty set is a no-op; the function is
total, so no delivery failure ever propagates to the caller. -/
theorem C7_broadcast_failure_isolation (conns : List Nat) (sendFails : Nat → Bool)
    (bad : Nat) (sid ts sid2 ts2 : String) (rs rs2 : List Rat)
    (hn : conns.Nodup) (hb : bad ∈ conns)
    (hf : ∀ c ∈ conns, sendFails c = (c == bad)) :
    (broadcast_spectral_data conns sendFails sid ts rs).2 =
      (conns.filter (fun c => !(c == bad))).map
        (fun c => (c, { spectrometer_id := sid, timestamp := ts,
                        calibrated_readings := rs : BroadcastMessage })) ∧
    (broadcast_spectral_data conns sendFails sid ts rs).1 = conns.erase bad ∧
    broadcast_spectral_data (conns.erase bad) (fun _ => false) sid2 ts2 rs2 =
      (conns.erase bad, (conns.erase bad).map
        (fun c => (c, { spectrometer_id := sid2, timestamp := ts2,
                        calibrated_readings := rs2 : BroadcastMessage }))) ∧
    broadcast_spectral_data [] sendFails sid ts rs = ([], []) := by
  have hne : conns.isEmpty = false := by
    cases conns with
    | nil => cases hb
    | cons c t => rfl
  have hpass := broadcastPass_eq
    { spectrometer_id := sid, timestamp := ts, calibrated_readings := rs } sendFails conns
  have hfil1 : conns.filter (fun c => !sendFails c) = conns.filter (fun c => !(c == bad)) :=
    List.filter_congr (fun x hx => by rw [hf x hx])
  have hfil2 : conns.filter sendFails = [bad] := by
    have h1 : conns.filter sendFails = conns.filter (fun c => c == bad) :=
      List.filter_congr (fun x hx => hf x hx)
    rw [h1]
    exact filter_beq_singleton conns bad hn hb
  refine ⟨?_, ?_, broadcast_no_failures (conns.erase bad) sid2 ts2 rs2, rfl⟩
  · simp only [broadcast_spectral_data, hne, Bool.false_eq_true, if_false, hpass, hfil1]
  · simp only [broadcast_spectral_data, hne, Bool.false_eq_true, if_false, hpass, hfil2,
      List.foldl_cons, List.foldl_nil]

/-- Witness for C7: of three subscribers where handle 2 raises, handles 1
and 3 each receive the message, handle 2 is dropped from the set. -/
theorem C7_witness :
    ([1, 2, 3] : List Nat).Nodup ∧ (2 : Nat) ∈ ([1, 2, 3] : List Nat) ∧
    (∀ c ∈ ([1, 2, 3] : List Nat), (fun x => x == 2) c = (c == 2)) ∧
    (broadcast_spectral_data [1, 2, 3] (fun x => x == 2) "s" "t" [(5:Rat)]).2 =
      [(1, { spectrometer_id := "s", timestamp := "t", calibrated_readings := [(5:Rat)] }),
       (3, { spectrometer_id := "s", timestamp := "t", calibrated_readings := [(5:Rat)] })] ∧
    (broadcast_spectral_data [1, 2, 3] (fun x => x == 2) "s" "t" [(5:Rat)]).1 = [1, 3] :=
  ⟨by decide, by decide, fun c hc => rfl,
   (C7_broadcast_failure_isolation [1, 2, 3] (fun x => x == 2) 2 "s" "t" "s" "t"
     [(5:Rat)] [] (by decide) (by decide) (fun c hc => rfl)).1,
   (C7_broadcast_failure_isolation [1, 2, 3] (fun x => x == 2) 2 "s" "t" "s" "t"
     [(5:Rat)] [] (by decide) (by decide) (fun c hc => rfl)).2.1⟩

/-- Claim C8: once a discovery has parsed the 200 body and the provisioning
steps have produced their configs, the outcome of the best-effort register
callback — any status, or an exception — is irrelevant: `discover_device`
(device_registry.py:89-106) returns the device together with the created
resource ids, and the device and resources are present in the final
registry, for every callback outcome. -/
theorem C8_register_nonfatal (reg : DeviceRegistry) (port : Nat) (address : String)
    (deviceId specId chamberId : String) (now : Nat) (data : JsonValue)
    (dev : DeviceInfo) (so : Option SpectrometerConfig) (co : Option VacuumChamberConfig)
    (hparse : parseDeviceInfo deviceId port address data = some dev)
    (hspec : provisionSpectrometer specId dev now = some so)
    (hcham : provisionChamber chamberId dev now = some co) :
    ∀ rr : RegisterResult,
      (discover_device reg port address (.response 200 (some data)) rr
        deviceId specId chamberId now).2
        = (some dev, so.map (fun c => c.id), co.map (fun c => c.id)) ∧
      alistGet dev.id (discover_device reg port address (.response 200 (some data)) rr
        deviceId specId chamberId now).1.devices = some dev ∧
      (∀ c, so = some c →
        alistGet c.id (discover_device reg port address (.response 200 (some data)) rr
          deviceId specId chamberId now).1.spectrometers = some c) ∧
      (∀ c, co = some c →
        alistGet c.id (discover_device reg port address (.response 200 (some data)) rr
          deviceId specId chamberId now).1.vacuum_chambers = some c) := by
  intro rr
  have heq := discover_success_eq reg port address rr deviceId specId chamberId now
    data dev so co hparse hspec hcham
  rw [heq]
  refine ⟨rfl, ?_, ?_, ?_⟩
  · cases so <;> cases co <;>
      simp [addSpecOpt, addChamberOpt, add_spectrometer, add_vacuum_chamber,
        alistGet_insert_self]
  · intro c hc
    subst hc
    cases co <;>
      simp [addSpecOpt, addChamberOpt, add_spectrometer, add_vacuum_chamber,
        alistGet_insert_self]
  · intro c hc
    subst hc
    cases so <;>
      simp [addSpecOpt, addChamberOpt, add_spectrometer, add_vacuum_chamber,
        alistGet_insert_self]

/-- A sample 200 discovery body declaring both capabilities. -/
def sampleBody : JsonValue :=
  .obj [("type", .str "spectrometer"), ("name", .str "Dev"),
        ("capabilities", .obj [("has_spectrometer", .jbool true),
                               ("is_monochromatic", .jbool true),
                               ("has_vacuum_chamber", .jbool true)])]

/-- The device record that `sampleBody` parses to. -/
def sampleParsedDevice : DeviceInfo :=
  { id := "d1", type := .spectrometer, port := 8100, address := "localhost",
    name := "Dev", status := .connected,
    capabilities := [("has_spectrometer", .jbool true),
                     ("is_monochromatic", .jbool true),
                     ("has_vacuum_chamber", .jbool true)] }

/-- The spectrometer auto-provisioned for `sampleParsedDevice`. -/
def sampleProvSpec : SpectrometerConfig :=
  { id := "s1", device_id := "d1", name := "Dev - Spectrometer",
    is_monochromatic := true, control_wavelength := none,
    is_active := false, created_at := 7 }

/-- The chamber auto-provisioned for `sampleParsedDevice`. -/
def sampleProvCham : VacuumChamberConfig :=
  { id := "c1", device_id := "d1", name := "Dev - Vacuum Chamber",
    process_type := .two_component, current_material := some "H",
    current_fraction := none, status := .stopped,
    is_active := false, created_at := 7 }

theorem parseDeviceInfo_name_default (deviceId : String) (port : Nat) (address : String)
    (data : JsonValue) (dev : DeviceInfo)
    (hparse : parseDeviceInfo deviceId port address data = some dev)
    (hname : data.index "name" = none) : dev.name = "Unknown Device" := by
  cases hidx : data.index "type" with
  | none => simp [parseDeviceInfo, hidx] at hparse
  | some tv =>
    cases hty : DeviceType.ofJson tv with
    | none => simp [parseDeviceInfo, hidx, hty] at hparse
    | some ty =>
      cases hcap : data.index "capabilities" with
      | none =>
        have h4 : parseDeviceInfo deviceId port address data =
            some { id := deviceId, type := ty, port := port, address := address,
                   name := "Unknown Device", status := .connected, capabilities := [] } := by
          simp [parseDeviceInfo, hidx, hty, hname, hcap]
        rw [h4] at hparse
        injection hparse with h5
        rw [← h5]
      | some cv =>
        cases cv with
        | obj fs =>
          have h4 : parseDeviceInfo deviceId port address data =
              some { id := deviceId, type := ty, port := port, address := address,
                     name := "Unknown Device", status := .connected, capabilities := fs } := by
            simp [parseDeviceInfo, hidx, hty, hname, hcap]
          rw [h4] at hparse
          injection hparse with h5
          rw [← h5]
        | null => simp [parseDeviceInfo, hidx, hty, hname, hcap] at hparse
        | jbool b => simp [parseDeviceInfo, hidx, hty, hname, hcap] at hparse
        | num q => simp [parseDeviceInfo, hidx, hty, hname, hcap] at hparse
        | str s => simp [parseDeviceInfo, hidx, hty, hname, hcap] at hparse
        | arr es => simp [parseDeviceInfo, hidx, hty, hname, hcap] at hparse

/-- Witness for C8: discovering `sampleBody` while the register callback
raises still returns the device and both resource ids. -/
theorem C8_witness :
    parseDeviceInfo "d1" 8100 "localhost" sampleBody = some sampleParsedDevice ∧
    provisionSpectrometer "s1" sampleParsedDevice 7 = some (some sampleProvSpec) ∧
    provisionChamber "c1" sampleParsedDevice 7 = some (some sampleProvCham) ∧
    (discover_device DeviceRegistry.init 8100 "localhost"
      (.response 200 (some sampleBody)) .exn "d1" "s1" "c1" 7).2
      = (some sampleParsedDevice, some "s1", some "c1") :=
  ⟨rfl, rfl, rfl,
   (C8_register_nonfatal DeviceRegistry.init 8100 "localhost" "d1" "s1" "c1" 7
     sampleBody sampleParsedDevice (some sampleProvSpec) (some sampleProvCham)
     rfl rfl rfl .exn).1⟩

/-- A 200 discovery body whose vacuum-chamber capability carries an invalid
process type: the device record is stored, then `ProcessType("bogus")`
raises (device_registry.py:72) and the outer handler returns the no-device
triple. -/
def badProcBody : JsonValue :=
  .obj [("type", .str "spectrometer"),
        ("capabilities", .obj [("has_vacuum_chamber", .jbool true),
                               ("process_type", .str "bogus")])]

/-- Counterexample to C3 as stated: this discovery errors (invalid
`process_type`) and returns the no-device triple, yet the registry is not
left as it was — the device record created before the provisioning error
stays stored (one device where there was none). -/
theorem C3_counterexample :
    (discover_device DeviceRegistry.init 8100 "localhost"
      (.response 200 (some badProcBody)) (.response 200) "d1" "s1" "c1" 0).2
      = (none, none, none) ∧
    (discover_device DeviceRegistry.init 8100 "localhost"
      (.response 200 (some badProcBody)) (.response 200)
      "d1" "s1" "c1" 0).1.devices.length = 1 ∧
    DeviceRegistry.init.devices.length = 0 :=
  ⟨rfl, rfl, rfl⟩

/-- Claim C3 (amended): every discovery whose device-info query itself fails
(timeout, network error, non-200 status, unparseable JSON body) or whose 200
body cannot be turned into a device record returns the no-device triple with
the registry exactly as it was.  An error later, during resource
auto-provisioning (for example an invalid `process_type` capability), also
returns the no-device triple but the already-stored device and spectrometer
stay — see the counterexample. -/
theorem C3_soft_failure_no_mutation (reg : DeviceRegistry) (port : Nat)
    (address : String) (rr : RegisterResult) (deviceId specId chamberId : String)
    (now : Nat) (get : HttpGetResult)
    (h : get = .timeout ∨ get = .network_error ∨
         (∃ s b, get = .response s b ∧ ¬ s = 200) ∨
         (∃ s, get = .response s none) ∨
         (∃ data, get = .response 200 (some data) ∧
            parseDeviceInfo deviceId port address data = none)) :
    discover_device reg port address get rr deviceId specId chamberId now
      = (reg, (none, none, none)) := by
  rcases h with rfl | rfl | ⟨s, b, rfl, hs⟩ | ⟨s, rfl⟩ | ⟨data, rfl, hp⟩
  · rfl
  · rfl
  · simp [discover_device, hs]
  · by_cases hs : s = 200
    · subst hs; rfl
    · simp [discover_device, hs]
  · simp [discover_device, hp]

/-- Witness for C3 (amended): a timed-out probe against the sample registry
changes nothing and reports no device. -/
theorem C3_witness :
    (HttpGetResult.timeout = HttpGetResult.timeout ∨
     HttpGetResult.timeout = HttpGetResult.network_error ∨
     (∃ s b, HttpGetResult.timeout = HttpGetResult.response s b ∧ ¬ s = 200) ∨
     (∃ s, HttpGetResult.timeout = HttpGetResult.response s none) ∨
     (∃ data, HttpGetResult.timeout = HttpGetResult.response 200 (some data) ∧
        parseDeviceInfo "d1" 8100 "localhost" data = none)) ∧
    discover_device regW 8100 "localhost" HttpGetResult.timeout (.response 200)
      "d1" "s1" "c1" 0 = (regW, (none, none, none)) :=
  ⟨Or.inl rfl,
   C3_soft_failure_no_mutation regW 8100 "localhost" (.response 200) "d1" "s1" "c1" 0
     HttpGetResult.timeout (Or.inl rfl)⟩

/-- A 200 discovery body where `has_spectrometer` is present with value
false. -/
def presentFalseBody : JsonValue :=
  .obj [("type", .str "spectrometer"),
        ("capabilities", .obj [("has_spectrometer", .jbool false)])]

/-- Counterexample to C4 as stated: with `has_spectrometer` present but
false, discovery succeeds and returns a device whose capability map does
contain the key, yet the returned spectrometer id is null — so "each
returned resource id is null exactly when the corresponding capability was
absent" fails on the code (null also happens for present-but-falsy flags). -/
theorem C4_counterexample :
    (((discover_device DeviceRegistry.init 8100 "localhost"
        (.response 200 (some presentFalseBody)) (.response 200)
        "d1" "s1" "c1" 0).2.1).map
      (fun d => (alistGet "has_spectrometer" d.capabilities).isSome)) = some true ∧
    (discover_device DeviceRegistry.init 8100 "localhost"
      (.response 200 (some presentFalseBody)) (.response 200)
      "d1" "s1" "c1" 0).2.2.1 = none :=
  ⟨rfl, rfl⟩

/-- Claim C4 (amended): for a discovery whose 200 body parses into a device
record and whose capability values validate, a spectrometer resource is
created if and only if `has_spectrometer` is truthy — with
`is_monochromatic` from the capability map (defaulting to false when the key
is absent), no control wavelength, inactive — and a chamber resource is
created if and only if `has_vacuum_chamber` is truthy — with process type
from `process_type` (defaulting to two-component when absent), material "H",
no fraction, status stopped, inactive; the device name defaults to
"Unknown Device" when absent; each returned resource id is null exactly when
the corresponding capability flag was not truthy (absent or falsy). -/
theorem C4_provisioning_amended (reg : DeviceRegistry) (port : Nat) (address : String)
    (rr : RegisterResult) (deviceId specId chamberId : String) (now : Nat)
    (data : JsonValue) (dev : DeviceInfo) (so : Option SpectrometerConfig)
    (co : Option VacuumChamberConfig)
    (hparse : parseDeviceInfo deviceId port address data = some dev)
    (hspec : provisionSpectrometer specId dev now = some so)
    (hcham : provisionChamber chamberId dev now = some co) :
    (discover_device reg port address (.response 200 (some data)) rr
       deviceId specId chamberId now).2.1 = some dev ∧
    (capTruthy dev.capabilities "has_spectrometer" = true →
       ∃ m, capMonochromatic dev.capabilities = some m ∧
         (discover_device reg port address (.response 200 (some data)) rr
            deviceId specId chamberId now).2.2.1 = some specId ∧
         alistGet specId (discover_device reg port address (.response 200 (some data)) rr
            deviceId specId chamberId now).1.spectrometers = some
           { id := specId, device_id := dev.id, name := dev.name ++ " - Spectrometer",
             is_monochromatic := m, control_wavelength := none, is_active := false,
             created_at := now }) ∧
    (capTruthy dev.capabilities "has_spectrometer" = false →
       (discover_device reg port address (.response 200 (some data)) rr
          deviceId specId chamberId now).2.2.1 = none ∧
       (discover_device reg port address (.response 200 (some data)) rr
          deviceId specId chamberId now).1.spectrometers = reg.spectrometers) ∧
    (capTruthy dev.capabilities "has_vacuum_chamber" = true →
       ∃ pt, capProcessType dev.capabilities = some pt ∧
         (discover_device reg port address (.response 200 (some data)) rr
            deviceId specId chamberId now).2.2.2 = some chamberId ∧
         alistGet chamberId (discover_device reg port address (.response 200 (some data)) rr
            deviceId specId chamberId now).1.vacuum_chambers = some
           { id := chamberId, device_id := dev.id, name := dev.name ++ " - Vacuum Chamber",
             process_type := pt, current_material := some "H", current_fraction := none,
             status := .stopped, is_active := false, created_at := now }) ∧
    (capTruthy dev.capabilities "has_vacuum_chamber" = false →
       (discover_device reg port address (.response 200 (some data)) rr
          deviceId specId chamberId now).2.2.2 = none ∧
       (discover_device reg port address (.response 200 (some data)) rr
          deviceId specId chamberId now).1.vacuum_chambers = reg.vacuum_chambers) ∧
    (data.index "name" = none → dev.name = "Unknown Device") ∧
    (alistGet "is_monochromatic" dev.capabilities = none →
       capMonochromatic dev.capabilities = some false) ∧
    (alistGet "process_type" dev.capabilities = none →
       capProcessType dev.capabilities = some ProcessType.two_component) := by
  have heq := discover_success_eq reg port address rr deviceId specId chamberId now
    data dev so co hparse hspec hcham
  rw [heq]
  refine ⟨rfl, ?_, ?_, ?_, ?_,
    fun hname => parseDeviceInfo_name_default deviceId port address data dev hparse hname,
    fun hmono => by simp [capMonochromatic, hmono],
    fun hproc => by simp [capProcessType, hproc]⟩
  · intro ht
    rw [provisionSpectrometer, if_pos ht] at hspec
    cases hm : capMonochromatic dev.capabilities with
    | none => rw [hm] at hspec; simp at hspec
    | some m =>
      rw [hm] at hspec
      simp only [Option.some.injEq] at hspec
      subst hspec
      refine ⟨m, rfl, rfl, ?_⟩
      cases co <;>
        simp [addSpecOpt, addChamberOpt, add_spectrometer, add_vacuum_chamber,
          alistGet_insert_self]
  · intro hf
    rw [provisionSpectrometer, if_neg (by simp [hf])] at hspec
    simp only [Option.some.injEq] at hspec
    subst hspec
    refine ⟨rfl, ?_⟩
    cases co <;>
      simp [addSpecOpt, addChamberOpt, add_spectrometer, add_vacuum_chamber]
  · intro ht
    rw [provisionChamber, if_pos ht] at hcham
    cases hm : capProcessType dev.capabilities with
    | none => rw [hm] at hcham; simp at hcham
    | some pt =>
      rw [hm] at hcham
      simp only [Option.some.injEq] at hcham
      subst hcham
      refine ⟨pt, rfl, rfl, ?_⟩
      cases so <;>
        simp [addSpecOpt, addChamberOpt, add_spectrometer, add_vacuum_chamber,
          alistGet_insert_self]
  · intro hf
    rw [provisionChamber, if_neg (by simp [hf])] at hcham
    simp only [Option.some.injEq] at hcham
    subst hcham
    refine ⟨rfl, ?_⟩
    cases so <;>
      simp [addSpecOpt, addChamberOpt, add_spectrometer, add_vacuum_chamber]

/-- Witness for C4 (amended): discovering `sampleBody` creates both
resources, returns their ids, and the stored spectrometer is monochromatic,
wavelength-free and inactive. -/
theorem C4_witness :
    parseDeviceInfo "d1" 8100 "localhost" sampleBody = some sampleParsedDevice ∧
    provisionSpectrometer "s1" sampleParsedDevice 7 = some (some sampleProvSpec) ∧
    provisionChamber "c1" sampleParsedDevice 7 = some (some sampleProvCham) ∧
    capTruthy sampleParsedDevice.capabilities "has_spectrometer" = true ∧
    (∃ m, capMonochromatic sampleParsedDevice.capabilities = some m ∧
      (discover_device DeviceRegistry.init 8100 "localhost"
         (.response 200 (some sampleBody)) (.response 200) "d1" "s1" "c1" 7).2.2.1
        = some "s1" ∧
      alistGet "s1" (discover_device DeviceRegistry.init 8100 "localhost"
         (.response 200 (some sampleBody)) (.response 200) "d1" "s1" "c1" 7).1.spectrometers
        = some
          { id := "s1", device_id := sampleParsedDevice.id,
            name := sampleParsedDevice.name ++ " - Spectrometer",
            is_monochromatic := m, control_wavelength := none, is_active := false,
            created_at := 7 }) :=
  ⟨rfl, rfl, rfl, rfl,
   (C4_provisioning_amended DeviceRegistry.init 8100 "localhost" (.response 200)
     "d1" "s1" "c1" 7 sampleBody sampleParsedDevice (some sampleProvSpec)
     (some sampleProvCham) rfl rfl rfl).2.1 rfl⟩

/-- The operation sequence breaking the single-active invariant: two
spectrometers, activate the first, then patch the active flag of the second
directly through the dynamic `update_spectrometer` field patch. -/
def doubleActiveOps : List RegOp :=
  [.add_spectrometer (sampleSpec "s1" false),
   .add_spectrometer (sampleSpec "s2" false),
   .set_active_spectrometer "s1",
   .update_spectrometer "s2" { is_active := some true }]

/-- Counterexample to C2 as stated: a sequence of registry operations (adds,
setActive, then an arbitrary-field update patching `is_active`) reaches a
state with two active spectrometers, because `update_spectrometer`
(device_registry.py:143-152) applies any recognized attribute without
clearing the other entries. -/
theorem C2_counterexample :
    ¬ activeSpectrometerCount (runOps doubleActiveOps) ≤ 1 := by decide

theorem applyOp_preserves_inv (reg : DeviceRegistry) (op : RegOp)
    (hb : op.benign = true) (h : RegistryActiveInv reg) :
    RegistryActiveInv (applyOp reg op) := by
  obtain ⟨hn1, hc1, hn2, hc2⟩ := h
  cases op with
  | add_spectrometer c =>
    simp only [RegOp.benign, Bool.not_eq_true'] at hb
    exact ⟨nodup_keys_insert c.id c reg.spectrometers hn1,
      le_trans (countFlag_insert_le _ c.id c reg.spectrometers hb) hc1, hn2, hc2⟩
  | add_vacuum_chamber c =>
    simp only [RegOp.benign, Bool.not_eq_true'] at hb
    exact ⟨hn1, hc1, nodup_keys_insert c.id c reg.vacuum_chambers hn2,
      le_trans (countFlag_insert_le _ c.id c reg.vacuum_chambers hb) hc2⟩
  | update_spectrometer id p =>
    simp only [RegOp.benign, Option.isNone_iff_eq_none] at hb
    cases hg : alistGet id reg.spectrometers with
    | none =>
      have hid : (update_spectrometer reg id p).1 = reg := by
        simp [update_spectrometer, hg]
      show RegistryActiveInv (update_spectrometer reg id p).1
      rw [hid]
      exact ⟨hn1, hc1, hn2, hc2⟩
    | some c =>
      have hmod : (update_spectrometer reg id p).1 =
          { reg with spectrometers :=
              alistModify id (fun c0 => c0.applyPatch p) reg.spectrometers } := by
        simp [update_spectrometer, hg]
      show RegistryActiveInv (update_spectrometer reg id p).1
      rw [hmod]
      refine ⟨?_, ?_, hn2, hc2⟩
      · show ((alistModify id (fun c0 => c0.applyPatch p)
            reg.spectrometers).map Prod.fst).Nodup
        rw [keys_modify]
        exact hn1
      · show countFlag (fun c => c.is_active)
          (alistModify id (fun c0 => c0.applyPatch p) reg.spectrometers) ≤ 1
        rw [countFlag_modify (fun c => c.is_active) id (fun c0 => c0.applyPatch p)
          reg.spectrometers (fun a => by simp [SpectrometerConfig.applyPatch, hb])]
        exact hc1
  | update_vacuum_chamber id p =>
    simp only [RegOp.benign, Option.isNone_iff_eq_none] at hb
    cases hg : alistGet id reg.vacuum_chambers with
    | none =>
      have hid : (update_vacuum_chamber reg id p).1 = reg := by
        simp [update_vacuum_chamber, hg]
      show RegistryActiveInv (update_vacuum_chamber reg id p).1
      rw [hid]
      exact ⟨hn1, hc1, hn2, hc2⟩
    | some c =>
      have hmod : (update_vacuum_chamber reg id p).1 =
          { reg with vacuum_chambers :=
              alistModify id (fun c0 => c0.applyPatch p) reg.vacuum_chambers } := by
        simp [update_vacuum_chamber, hg]
      show RegistryActiveInv (update_vacuum_chamber reg id p).1
      rw [hmod]
      refine ⟨hn1, hc1, ?_, ?_⟩
      · show ((alistModify id (fun c0 => c0.applyPatch p)
            reg.vacuum_chambers).map Prod.fst).Nodup
        rw [keys_modify]
        exact hn2
      · show countFlag (fun c => c.is_active)
          (alistModify id (fun c0 => c0.applyPatch p) reg.vacuum_chambers) ≤ 1
        rw [countFlag_modify (fun c => c.is_active) id (fun c0 => c0.applyPatch p)
          reg.vacuum_chambers (fun a => by simp [VacuumChamberConfig.applyPatch, hb])]
        exact hc2
  | set_active_spectrometer id =>
    by_cases hg : (alistGet id reg.spectrometers).isSome = true
    · have hsw : (set_active_spectrometer reg id).1 =
          { reg with spectrometers :=
              sweepActive (fun c b => { c with is_active := b }) id reg.spectrometers } := by
        simp [set_active_spectrometer, hg]
      show RegistryActiveInv (set_active_spectrometer reg id).1
      rw [hsw]
      refine ⟨?_, ?_, hn2, hc2⟩
      · show ((sweepActive (fun c b => { c with is_active := b }) id
            reg.spectrometers).map Prod.fst).Nodup
        rw [keys_sweep]
        exact hn1
      · show countFlag (fun c => c.is_active)
          (sweepActive (fun c b => { c with is_active := b }) id reg.spectrometers) ≤ 1
        rw [countFlag_sweep_eq (fun c b => { c with is_active := b })
          (fun c => c.is_active) (fun a b => rfl) id reg.spectrometers]
        exact countP_key_le_one id reg.spectrometers hn1
    · have hid : (set_active_spectrometer reg id).1 = reg := by
        simp [set_active_spectrometer, hg]
      show RegistryActiveInv (set_active_spectrometer reg id).1
      rw [hid]
      exact ⟨hn1, hc1, hn2, hc2⟩
  | set_active_vacuum_chamber id =>
    by_cases hg : (alistGet id reg.vacuum_chambers).isSome = true
    · have hsw : (set_active_vacuum_chamber reg id).1 =
          { reg with vacuum_chambers :=
              sweepActive (fun c b => { c with is_active := b }) id reg.vacuum_chambers } := by
        simp [set_active_vacuum_chamber, hg]
      show RegistryActiveInv (set_active_vacuum_chamber reg id).1
      rw [hsw]
      refine ⟨hn1, hc1, ?_, ?_⟩
      · show ((sweepActive (fun c b => { c with is_active := b }) id
            reg.vacuum_chambers).map Prod.fst).Nodup
        rw [keys_sweep]
        exact hn2
      · show countFlag (fun c => c.is_active)
          (sweepActive (fun c b => { c with is_active := b }) id reg.vacuum_chambers) ≤ 1
        rw [countFlag_sweep_eq (fun c b => { c with is_active := b })
          (fun c => c.is_active) (fun a b => rfl) id reg.vacuum_chambers]
        exact countP_key_le_one id reg.vacuum_chambers hn2
    · have hid : (set_active_vacuum_chamber reg id).1 = reg := by
        simp [set_active_vacuum_chamber, hg]
      show RegistryActiveInv (set_active_vacuum_chamber reg id).1
      rw [hid]
      exact ⟨hn1, hc1, hn2, hc2⟩
  | remove_spectrometer id =>
    by_cases hg : (alistGet id reg.spectrometers).isSome = true
    · have hrm : (remove_spectrometer reg id).1 =
          { reg with
              spectrometers := alistErase id reg.spectrometers,
              spectral_data :=
                if (alistGet id reg.spectral_data).isSome = true then
                  alistErase id reg.spectral_data
                else reg.spectral_data } := by
        simp [remove_spectrometer, hg]
      show RegistryActiveInv (remove_spectrometer reg id).1
      rw [hrm]
      exact ⟨nodup_keys_filter _ reg.spectrometers hn1,
        le_trans (countFlag_filter_le _ _ reg.spectrometers) hc1, hn2, hc2⟩
    · have hid : (remove_spectrometer reg id).1 = reg := by
        simp [remove_spectrometer, hg]
      show RegistryActiveInv (remove_spectrometer reg id).1
      rw [hid]
      exact ⟨hn1, hc1, hn2, hc2⟩
  | remove_vacuum_chamber id =>
    by_cases hg : (alistGet id reg.vacuum_chambers).isSome = true
    · have hrm : (remove_vacuum_chamber reg id).1 =
          { reg with vacuum_chambers := alistErase id reg.vacuum_chambers } := by
        simp [remove_vacuum_chamber, hg]
      show RegistryActiveInv (remove_vacuum_chamber reg id).1
      rw [hrm]
      exact ⟨hn1, hc1, nodup_keys_filter _ reg.vacuum_chambers hn2,
        le_trans (countFlag_filter_le _ _ reg.vacuum_chambers) hc2⟩
    · have hid : (remove_vacuum_chamber reg id).1 = reg := by
        simp [remove_vacuum_chamber, hg]
      show RegistryActiveInv (remove_vacuum_chamber reg id).1
      rw [hid]
      exact ⟨hn1, hc1, hn2, hc2⟩
  | remove_device id =>
    by_cases hg : (alistGet id reg.devices).isSome = true <;>
      simp only [applyOp, remove_device, hg, if_true, if_false] <;>
      exact ⟨hn1, hc1, hn2, hc2⟩
  | store_spectral_data id r w t =>
    exact ⟨hn1, hc1, hn2, hc2⟩
  | discover port addr g rr d s c n =>
    obtain ⟨hs, hc⟩ := discover_registry_effects reg port addr g rr d s c n
    show RegistryActiveInv (discover_device reg port addr g rr d s c n).1
    refine ⟨?_, ?_, ?_, ?_⟩
    · rcases hs with he | ⟨c0, _, he⟩
      · rw [he]; exact hn1
      · rw [he]; exact nodup_keys_insert c0.id c0 reg.spectrometers hn1
    · rcases hs with he | ⟨c0, hact, he⟩
      · show countFlag (fun c => c.is_active)
          (discover_device reg port addr g rr d s c n).1.spectrometers ≤ 1
        rw [he]; exact hc1
      · show countFlag (fun c => c.is_active)
          (discover_device reg port addr g rr d s c n).1.spectrometers ≤ 1
        rw [he]
        exact le_trans (countFlag_insert_le _ c0.id c0 reg.spectrometers hact) hc1
    · rcases hc with he | ⟨c0, _, he⟩
      · rw [he]; exact hn2
      · rw [he]; exact nodup_keys_insert c0.id c0 reg.vacuum_chambers hn2
    · rcases hc with he | ⟨c0, hact, he⟩
      · show countFlag (fun c => c.is_active)
          (discover_device reg port addr g rr d s c n).1.vacuum_chambers ≤ 1
        rw [he]; exact hc2
      · show countFlag (fun c => c.is_active)
          (discover_device reg port addr g rr d s c n).1.vacuum_chambers ≤ 1
        rw [he]
        exact le_trans (countFlag_insert_le _ c0.id c0 reg.vacuum_chambers hact) hc2

theorem foldl_preserves_inv (ops : List RegOp) : ∀ reg, RegistryActiveInv reg →
    ops.all RegOp.benign = true → RegistryActiveInv (ops.foldl applyOp reg) := by
  induction ops with
  | nil => intro reg h _; exact h
  | cons op t ih =>
    intro reg h hall
    simp only [List.all_cons, Bool.and_eq_true] at hall
    exact ih (applyOp reg op) (applyOp_preserves_inv reg op hall.1 h) hall.2

/-- Claim C2 (amended): for every sequence of registry operations in which
every added resource config is inactive and no update patch touches the
active flag — which is exactly how the REST layer of this repository drives
the registry — the state reached from the fresh registry has at most one
active spectrometer and, independently, at most one active vacuum chamber.
The unrestricted claim fails: an `update` patch (or an `add`) that sets
`is_active` directly produces two active resources, see the
counterexample. -/
theorem C2_single_active_invariant (ops : List RegOp)
    (h : ops.all RegOp.benign = true) :
    activeSpectrometerCount (runOps ops) ≤ 1 ∧
    activeVacuumChamberCount (runOps ops) ≤ 1 := by
  have hinit : RegistryActiveInv DeviceRegistry.init :=
    ⟨by simp [DeviceRegistry.init], by decide, by simp [DeviceRegistry.init], by decide⟩
  have hinv := foldl_preserves_inv ops DeviceRegistry.init hinit h
  exact ⟨hinv.2.1, hinv.2.2.2⟩

/-- The benign operation sequence used by the C2 witness. -/
def benignOpsW : List RegOp :=
  [.add_spectrometer (sampleSpec "s1" false),
   .add_spectrometer (sampleSpec "s2" false),
   .set_active_spectrometer "s1",
   .set_active_spectrometer "s2",
   .update_spectrometer "s2" { control_wavelength := some (some 550) },
   .add_vacuum_chamber (sampleChamber "c1" false),
   .set_active_vacuum_chamber "c1"]

/-- Witness for C2 (amended): after adds, two activations, a wavelength
update and a chamber activation, each kind has at most one active
resource. -/
theorem C2_witness :
    benignOpsW.all RegOp.benign = true ∧
    activeSpectrometerCount (runOps benignOpsW) ≤ 1 ∧
    activeVacuumChamberCount (runOps benignOpsW) ≤ 1 :=
  ⟨rfl, (C2_single_active_invariant benignOpsW rfl).1,
   (C2_single_active_invariant benignOpsW rfl).2⟩

end Monitoring
